import Mathlib

/-!
Verification of the WhatsApp persona auto-responder (`src/bot.js`,
`src/firebaseConfig.js`) against its natural-language specification.

The orchestration layer is shallowly embedded: the per-message body of the
`messages.upsert` handler becomes a pure step function over an explicit
conversation store, with the outcomes of the external collaborators
(Firestore availability, the Gemini generation call, the outbound message
tag, the clock) supplied by an explicit oracle record.  Observable actions
(store writes, error logs, the generation call, the outbound send) are
collected in a trace so that claims about which effects occur can be stated
directly.
-/

namespace NAi

/-- One record of a conversation's ordered message list
(the object built at bot.js lines 65-71). -/
structure MessageEntry where
  id : String
  content : String
  participant : String
  timestamp : Int
  direction : String
deriving Repr, DecidableEq

/-- The Firestore conversations collection: one document per sender JID,
each holding its ordered `messages` array.  Modelled as an association
list from JID to the stored list. -/
abbrev ConversationStore := List (String × List MessageEntry)

/-- Association-list lookup, modelling JS object / Firestore document
access by key. -/
def lookupStore {α : Type} : List (String × α) → String → Option α
  | [], _ => none
  | (k, v) :: rest, key => if key = k then some v else lookupStore rest key

/-- Firestore `FieldValue.arrayUnion(e)` applied to a stored array: the
element is appended at the end only when no deep-equal element is already
present; otherwise the array is left unchanged (documented Firestore
union-write semantics, used at bot.js line 65). -/
def arrayUnion (xs : List MessageEntry) (e : MessageEntry) : List MessageEntry :=
  if e ∈ xs then xs else xs ++ [e]

/-- `docRef.set({messages: arrayUnion(e)}, {merge: true})` on the document
keyed `jid` (bot.js lines 63-72): creates the document with a singleton
array when absent, otherwise union-appends to its `messages` array. -/
def storeSet : ConversationStore → String → MessageEntry → ConversationStore
  | [], jid, e => [(jid, [e])]
  | (k, ms) :: rest, jid, e =>
    if k = jid then (k, arrayUnion ms e) :: rest
    else (k, ms) :: storeSet rest jid e

/-- The stored message list of a conversation, empty when the document does
not exist. -/
def storedMessages (st : ConversationStore) (jid : String) : List MessageEntry :=
  (lookupStore st jid).getD []

/-- JS `messages.slice(-limit)` for `limit ≥ 1`: the tail of the stored
list of length at most `limit`, in stored order.  The code fixes
`limit = 10` (bot.js line 86); the spec's `recent(conversationId, limit)`
contract generalises the same tail retrieval. -/
def recent (messages : List MessageEntry) (limit : Nat) : List MessageEntry :=
  messages.drop (messages.length - limit)

/-- `getConversationHistory` (bot.js lines 80-93): returns the last 10
stored entries of the sender's document, the empty list when the document
does not exist, and the empty list when the Firestore read fails (the
catch branch).  `readOk` stands for the external read succeeding. -/
def getConversationHistory (readOk : Bool) (st : ConversationStore)
    (fromJid : String) : List MessageEntry :=
  if readOk then
    match lookupStore st fromJid with
    | some ms => recent ms 10
    | none => []
  else []

/-- The hardcoded default persona prompt `DEFAULT_NYASHA_PROMPT`
(bot.js lines 23-30), reproduced verbatim including the doubled word. -/
def DEFAULT_NYASHA_PROMPT : String :=
  "\nYouYou are Nyasha Munyanyiwa, a 16-year-old boy living in Zimbabwe with his mother, father, and sister.\nYou are generally curious, respectful, and observant. You speak in a friendly, slightly informal tone, characteristic of a Zimbabwean teenager.\nYou might use common Zimbabwean phrases or expressions subtly (e.g., \"howzit,\" \"sharp,\" \"eish,\" \"saka\").\nYou enjoy talking about daily life, school, friends, local events, and maybe a bit about sports or music popular in Zimbabwe.\nDo not break character. Do not reveal you are an AI. Do not act as a general AI assistant.\nAlways try to respond within the persona of Nyasha Munyanyiwa. Keep responses concise but engaging.\n"

/-- The fixed apology substituted when the generation call fails
(bot.js line 231). -/
def apologyText : String :=
  "Apologies, I encountered an error trying to generate a response from Nyasha. Please try again later."

/-- One entry of the static `userData.json` persona table: display name and
prompt text. -/
structure UserConfig where
  name : String
  prompt : String
deriving Repr, DecidableEq

/-- Persona resolution (bot.js lines 197-208): the sender's configured
prompt when the normalized JID is a key of the persona table, otherwise the
hardcoded default prompt. -/
def resolvePrompt (userData : List (String × UserConfig)) (fromJid : String) : String :=
  match lookupStore userData fromJid with
  | some cfg => cfg.prompt
  | none => DEFAULT_NYASHA_PROMPT

/-- The Gemini role label of a stored entry (bot.js line 215):
participant `"user"` maps to role `"user"`, anything else to `"model"`. -/
def roleOf (e : MessageEntry) : String :=
  if e.participant = "user" then "user" else "model"

/-- The `startChat` history mapping (bot.js lines 214-217): each stored
entry becomes a (role, text) turn. -/
def toGeminiHistory (hs : List MessageEntry) : List (String × String) :=
  hs.map (fun h => (roleOf h, h.content))

/-- Message key as delivered by the protocol client
(`msg.key`: fromMe, remoteJid, id). -/
structure MsgKey where
  fromMe : Bool
  remoteJid : String
  id : String
deriving Repr, DecidableEq

/-- The four optional text carriers read at bot.js line 188, each field
standing for the result of the corresponding optional-chaining path
(`extendedTextMessage?.text`, `conversation`, `imageMessage?.caption`,
`videoMessage?.caption`). -/
structure MessageContent where
  extendedTextMessageText : Option String
  conversation : Option String
  imageMessageCaption : Option String
  videoMessageCaption : Option String
deriving Repr, DecidableEq

/-- An inbound protocol message: key, optional content object, timestamp
in seconds. -/
structure WAMessage where
  key : MsgKey
  message : Option MessageContent
  messageTimestamp : Int
deriving Repr, DecidableEq

/-- JS `a || b` where `a` is an optional string and `b` the already
evaluated rest of the chain: a present, non-empty string short-circuits;
`undefined` and the empty string fall through. -/
def jsOrD (a : Option String) (rest : String) : String :=
  match a with
  | some s => if s = "" then rest else s
  | none => rest

/-- Content extraction (bot.js line 188):
`m?.extendedTextMessage?.text || m?.conversation || m?.imageMessage?.caption || m?.videoMessage?.caption || ''`. -/
def extractContent (m : Option MessageContent) : String :=
  match m with
  | none => ""
  | some mc =>
    jsOrD mc.extendedTextMessageText
      (jsOrD mc.conversation
        (jsOrD mc.imageMessageCaption
          (jsOrD mc.videoMessageCaption "")))

/-- Modelled from the spec: the first non-empty of a list of optional
strings, defaulting to the empty string (spec step 3 of the per-message
pipeline).  Stated separately so the code's short-circuit chain can be
compared against the spec's wording. -/
def firstNonEmpty : List (Option String) → String
  | [] => ""
  | none :: rest => firstNonEmpty rest
  | some s :: rest => if s = "" then firstNonEmpty rest else s

/-- The runtime error raised by the stray statement `f` at bot.js line 76:
`f` is not bound anywhere in the module, so evaluating it throws a
ReferenceError. -/
inductive JsError where
  | referenceErrorF
deriving Repr, DecidableEq

/-- Observable actions of the per-message pipeline. -/
inductive Effect where
  | storeWrite (jid : String) (e : MessageEntry)
  | logStoreError
  | genCall (history : List (String × String)) (message : String)
  | send (jid : String) (text : String)
deriving Repr, DecidableEq

/-- Whether an effect is the generation call. -/
def isGenCall : Effect → Bool
  | Effect.genCall _ _ => true
  | _ => false

/-- Whether an effect is an outbound send. -/
def isSend : Effect → Bool
  | Effect.send _ _ => true
  | _ => false

/-- Result of running a handler step: the updated conversation store, the
trace of observable effects in order, and the exception escaping the step,
if any. -/
structure StepResult where
  store : ConversationStore
  effects : List Effect
  thrown : Option JsError
deriving Repr, DecidableEq

/-- Outcomes of the external collaborators during one message's
processing: whether each Firestore write/read succeeds, the result of the
Gemini call (`some text` when the awaited call returns, `none` when it
throws), the tag `sock.generateMessageTag()` assigns to the outbound
message, and `Date.now()`. -/
structure Oracle where
  storeOkIn : Bool
  storeOkOut : Bool
  historyOk : Bool
  genResult : Option String
  messageTag : String
  nowMs : Int
deriving Repr, DecidableEq

/-- `storeMessageInFirestore` (bot.js lines 61-77): inside the try block
the union-write is performed (when the store is available), a store
failure is caught and logged — and then, after the catch block, the stray
statement `f` on line 76 is evaluated, raising a ReferenceError on every
call.  The function therefore always completes exceptionally. -/
def storeMessageInFirestore (writeOk : Bool) (st : ConversationStore)
    (fromJid : String) (e : MessageEntry) : StepResult :=
  if writeOk then
    { store := storeSet st fromJid e
      effects := [Effect.storeWrite fromJid e]
      thrown := some JsError.referenceErrorF }
  else
    { store := st
      effects := [Effect.logStoreError]
      thrown := some JsError.referenceErrorF }

/-- The per-message body of the `messages.upsert` handler
(bot.js lines 183-239), for one message of a notify batch.  Self-sent and
broadcast-status messages are skipped before any effect.  Otherwise the
sender JID is normalized, the content extracted, and the inbound entry
persisted; because `storeMessageInFirestore` always throws (stray `f`,
line 76) and the handler awaits it outside any try/catch, the remaining
steps are modelled under the `thrown = none` branch exactly as written but
are unreachable. -/
def processMessage (normalize : String → String)
    (userData : List (String × UserConfig)) (o : Oracle)
    (st : ConversationStore) (msg : WAMessage) : StepResult :=
  if msg.key.fromMe = true ∨ msg.key.remoteJid = "status@broadcast" then
    { store := st, effects := [], thrown := none }
  else
    let fromJid := normalize msg.key.remoteJid
    let messageContent := extractContent msg.message
    let r1 := storeMessageInFirestore o.storeOkIn st fromJid
      { id := msg.key.id, content := messageContent, participant := "user",
        timestamp := msg.messageTimestamp * 1000, direction := "incoming" }
    match r1.thrown with
    | some err => { store := r1.store, effects := r1.effects, thrown := some err }
    | none =>
      let aiPrompt := resolvePrompt userData fromJid
      let history := getConversationHistory o.historyOk r1.store fromJid
      let genEff := Effect.genCall (toGeminiHistory history)
        (aiPrompt ++ "\nUser: " ++ messageContent)
      let responseText :=
        match o.genResult with
        | some t => t
        | none => apologyText
      if responseText ≠ "" then
        let r2 := storeMessageInFirestore o.storeOkOut r1.store fromJid
          { id := o.messageTag, content := responseText, participant := "bot",
            timestamp := o.nowMs, direction := "outgoing" }
        { store := r2.store
          effects := r1.effects ++ [genEff, Effect.send fromJid responseText] ++ r2.effects
          thrown := r2.thrown }
      else
        { store := r1.store, effects := r1.effects ++ [genEff], thrown := none }

/-- The loop over a notify batch (bot.js line 183): messages are processed
in order; an exception escaping one message's `await` rejects the async
handler and aborts the rest of the batch. -/
def processBatch (normalize : String → String)
    (userData : List (String × UserConfig)) (o : Oracle)
    : ConversationStore → List WAMessage → StepResult
  | st, [] => { store := st, effects := [], thrown := none }
  | st, m :: rest =>
    let r := processMessage normalize userData o st m
    match r.thrown with
    | some err => { store := r.store, effects := r.effects, thrown := some err }
    | none =>
      let r2 := processBatch normalize userData o r.store rest
      { store := r2.store, effects := r.effects ++ r2.effects, thrown := r2.thrown }

/-- The `messages.upsert` handler (bot.js lines 181-242): only notify
batches are processed. -/
def messagesUpsert (normalize : String → String)
    (userData : List (String × UserConfig)) (o : Oracle)
    (st : ConversationStore) (upsertType : String) (msgs : List WAMessage)
    : StepResult :=
  if upsertType = "notify" then processBatch normalize userData o st msgs
  else { store := st, effects := [], thrown := none }

/-- Baileys `DisconnectReason.badSession` (external library constant). -/
def badSessionCode : Nat := 500

/-- Baileys `DisconnectReason.loggedOut` (external library constant). -/
def loggedOutCode : Nat := 401

/-- Baileys `DisconnectReason.connectionClosed` (external library
constant). -/
def connectionClosedCode : Nat := 428

/-- Action taken by the connection-close branch of the `connection.update`
handler. -/
inductive CloseAction where
  | exitProcess
  | scheduleReconnect
deriving Repr, DecidableEq

/-- Classification of a connection close (bot.js lines 156-165): bad
session or logged out exit the process; the transport-level
connection-closed reason schedules a reconnect after a fixed delay; every
other reason (including an absent status code) exits the process. -/
def connectionCloseAction (reason : Option Nat) : CloseAction :=
  if reason = some badSessionCode ∨ reason = some loggedOutCode then
    CloseAction.exitProcess
  else if reason = some connectionClosedCode then
    CloseAction.scheduleReconnect
  else
    CloseAction.exitProcess

/-- Whether an effect is a store write carrying an outgoing entry. -/
def isOutgoingWrite : Effect → Bool
  | Effect.storeWrite _ e => e.direction = "outgoing"
  | _ => false

/-- Concrete inbound message used in the witnesses and failing-input
evaluations: sender `123@s.whatsapp.net`, plain conversation text `Hi`,
not self-sent. -/
def hiMessage : WAMessage :=
  { key := { fromMe := false, remoteJid := "123@s.whatsapp.net", id := "MSG1" }
    message := some { extendedTextMessageText := none, conversation := some "Hi",
                      imageMessageCaption := none, videoMessageCaption := none }
    messageTimestamp := 1700000000 }

/-- The MessageEntry the handler builds for `hiMessage`. -/
def hiEntry : MessageEntry :=
  { id := "MSG1", content := "Hi", participant := "user",
    timestamp := 1700000000000, direction := "incoming" }

/-- Oracle in which every external call succeeds and the model returns a
fixed greeting. -/
def happyOracle : Oracle :=
  { storeOkIn := true, storeOkOut := true, historyOk := true,
    genResult := some "Hello there!", messageTag := "TAG1",
    nowMs := 1700000001000 }

/-- Oracle in which the inbound Firestore write fails. -/
def storeFailOracle : Oracle :=
  { happyOracle with storeOkIn := false }

/-- Oracle in which the Gemini generation call throws. -/
def genFailOracle : Oracle :=
  { happyOracle with genResult := none }

/-- Persona table in which the sender of `hiMessage` is configured. -/
def configuredTable : List (String × UserConfig) :=
  [("123@s.whatsapp.net", { name := "Friend", prompt := "CUSTOM PROMPT" })]

/-- A self-sent message (fromMe), used to exercise the filter. -/
def selfMessage : WAMessage :=
  { key := { fromMe := true, remoteJid := "456@s.whatsapp.net", id := "MSG2" }
    message := some { extendedTextMessageText := none, conversation := some "note",
                      imageMessageCaption := none, videoMessageCaption := none }
    messageTimestamp := 1700000002 }

/-- Sample conversation entries for the append/recent round-trip. -/
def demoEntryA : MessageEntry :=
  { id := "A", content := "hello", participant := "user",
    timestamp := 1, direction := "incoming" }

/-- A second, distinct sample entry. -/
def demoEntryB : MessageEntry :=
  { id := "B", content := "yo", participant := "bot",
    timestamp := 2, direction := "outgoing" }

/-- The spec-side first-non-empty selector unfolds one step into the
code's short-circuit combinator. -/
theorem firstNonEmpty_cons (a : Option String) (rest : List (Option String)) :
    firstNonEmpty (a :: rest) = jsOrD a (firstNonEmpty rest) := by
  cases a <;> simp [firstNonEmpty, jsOrD]

/-- The code's extraction chain computes the spec's first non-empty
candidate. -/
theorem extractContent_eq_firstNonEmpty (m : Option MessageContent) :
    extractContent m = firstNonEmpty
      [m.bind MessageContent.extendedTextMessageText,
       m.bind MessageContent.conversation,
       m.bind MessageContent.imageMessageCaption,
       m.bind MessageContent.videoMessageCaption] := by
  cases m with
  | none => rfl
  | some mc => simp [extractContent, firstNonEmpty_cons, firstNonEmpty, Option.bind]

/-- C8: a reconnect is scheduled exactly for the transport-level
connection-closed close reason; the bad-session reason, the logged-out
reason and every unrecognized reason terminate the process without a
reconnect. -/
theorem c8_reconnect_iff_connection_closed (reason : Option Nat) :
    connectionCloseAction reason =
      (if reason = some connectionClosedCode then CloseAction.scheduleReconnect
       else CloseAction.exitProcess) := by
  unfold connectionCloseAction badSessionCode loggedOutCode connectionClosedCode
  rcases reason with _ | n
  · simp
  · by_cases h1 : n = 500 <;> by_cases h2 : n = 401 <;> by_cases h3 : n = 428 <;>
      simp_all

/-- C5: a message whose key has fromMe, or whose remote identifier is the
broadcast-status channel, is skipped before any effect: no generation
call is made and no reply is sent for it. -/
theorem c5_filtered_no_gen_no_send (normalize : String → String)
    (userData : List (String × UserConfig)) (o : Oracle)
    (st : ConversationStore) (msg : WAMessage)
    (h : msg.key.fromMe = true ∨ msg.key.remoteJid = "status@broadcast") :
    (processMessage normalize userData o st msg).effects.countP isGenCall = 0 ∧
    (processMessage normalize userData o st msg).effects.countP isSend = 0 := by
  simp [processMessage, h]

/-- Witness for C5 at the concrete self-sent message. -/
theorem c5_filtered_witness :
    (selfMessage.key.fromMe = true ∨ selfMessage.key.remoteJid = "status@broadcast") ∧
    ((processMessage (fun s => s) [] happyOracle [] selfMessage).effects.countP isGenCall = 0 ∧
     (processMessage (fun s => s) [] happyOracle [] selfMessage).effects.countP isSend = 0) :=
  ⟨Or.inl rfl, c5_filtered_no_gen_no_send (fun s => s) [] happyOracle [] selfMessage (Or.inl rfl)⟩

/-- C7: the history retrieval returns at most 10 entries, is a suffix of
the stored list (hence in stored order and no longer than it), and is
empty for an unknown conversation. -/
theorem c7_recent_bounds (readOk : Bool) (st : ConversationStore) (fromJid : String) :
    (getConversationHistory readOk st fromJid).length ≤ 10 ∧
    getConversationHistory readOk st fromJid <:+ storedMessages st fromJid ∧
    (getConversationHistory readOk st fromJid).length ≤ (storedMessages st fromJid).length ∧
    (lookupStore st fromJid = none → getConversationHistory readOk st fromJid = []) := by
  unfold getConversationHistory storedMessages recent
  cases readOk with
  | false => simp
  | true =>
    cases h : lookupStore st fromJid with
    | none => simp
    | some ms =>
      simp only [h, Option.getD_some, if_pos rfl, if_true]
      refine ⟨?_, ?_, ?_, ?_⟩
      · rw [List.length_drop]; omega
      · exact List.drop_suffix _ _
      · rw [List.length_drop]; omega
      · intro hn; exact Option.noConfusion hn

/-- Witness for C7 at a concrete store. -/
theorem c7_recent_bounds_witness :
    (getConversationHistory true [("123@s.whatsapp.net", [demoEntryA, demoEntryB])] "123@s.whatsapp.net").length ≤ 10 ∧
    getConversationHistory true [("123@s.whatsapp.net", [demoEntryA, demoEntryB])] "123@s.whatsapp.net" <:+
      storedMessages [("123@s.whatsapp.net", [demoEntryA, demoEntryB])] "123@s.whatsapp.net" ∧
    (getConversationHistory true [("123@s.whatsapp.net", [demoEntryA, demoEntryB])] "123@s.whatsapp.net").length ≤
      (storedMessages [("123@s.whatsapp.net", [demoEntryA, demoEntryB])] "123@s.whatsapp.net").length ∧
    (lookupStore [("123@s.whatsapp.net", [demoEntryA, demoEntryB])] "123@s.whatsapp.net" = none →
      getConversationHistory true [("123@s.whatsapp.net", [demoEntryA, demoEntryB])] "123@s.whatsapp.net" = []) :=
  c7_recent_bounds true [("123@s.whatsapp.net", [demoEntryA, demoEntryB])] "123@s.whatsapp.net"

/-- C1: evaluating the handler on a notify batch holding one message
`"Hi"` from a sender absent from the persona table, with every external
call succeeding, persists the one incoming entry and then completes
exceptionally (the stray `f` of bot.js line 76 raises a ReferenceError
inside `storeMessageInFirestore`): no generation call is made, no reply
is sent, and no outgoing entry is stored, contrary to the claimed
pipeline. -/
theorem c1_hi_pipeline_aborts :
    messagesUpsert (fun s => s) [] happyOracle [] "notify" [hiMessage] =
      { store := [("123@s.whatsapp.net", [hiEntry])]
        effects := [Effect.storeWrite "123@s.whatsapp.net" hiEntry]
        thrown := some JsError.referenceErrorF } ∧
    (messagesUpsert (fun s => s) [] happyOracle [] "notify" [hiMessage]).effects.countP isGenCall = 0 ∧
    (messagesUpsert (fun s => s) [] happyOracle [] "notify" [hiMessage]).effects.countP isSend = 0 ∧
    (messagesUpsert (fun s => s) [] happyOracle [] "notify" [hiMessage]).effects.countP isOutgoingWrite = 0 := by
  refine ⟨?_, ?_, ?_, ?_⟩ <;> decide

/-- C2: when the inbound Firestore write fails, the failure is logged
(the catch at bot.js lines 74-76) — but the stray `f` then raises a
ReferenceError, so the handler step completes exceptionally and none of
the remaining pipeline steps (persona resolution, history fetch,
generation, reply send, outbound persist) execute. -/
theorem c2_store_failure_aborts :
    (processMessage (fun s => s) [] storeFailOracle [] hiMessage).effects = [Effect.logStoreError] ∧
    (processMessage (fun s => s) [] storeFailOracle [] hiMessage).thrown = some JsError.referenceErrorF ∧
    (processMessage (fun s => s) [] storeFailOracle [] hiMessage).effects.countP isGenCall = 0 ∧
    (processMessage (fun s => s) [] storeFailOracle [] hiMessage).effects.countP isSend = 0 ∧
    (processMessage (fun s => s) [] storeFailOracle [] hiMessage).effects.countP isOutgoingWrite = 0 := by
  refine ⟨?_, ?_, ?_, ?_, ?_⟩ <;> decide

/-- C4: when the generation call would fail, no apology reply is ever
sent and no outbound entry is stored, because processing aborts with the
ReferenceError of the stray `f` before the generator is invoked. -/
theorem c4_gen_failure_no_apology :
    (processMessage (fun s => s) [] genFailOracle [] hiMessage).effects.countP isSend = 0 ∧
    (processMessage (fun s => s) [] genFailOracle [] hiMessage).effects.countP isOutgoingWrite = 0 ∧
    (processMessage (fun s => s) [] genFailOracle [] hiMessage).thrown = some JsError.referenceErrorF := by
  refine ⟨?_, ?_, ?_⟩ <;> decide

/-- C6: even for a sender present in the persona table, no prompt is ever
passed to the Response Generator: the generation call never happens
because processing aborts at the inbound persist. -/
theorem c6_configured_sender_no_gen_call :
    (processMessage (fun s => s) configuredTable happyOracle [] hiMessage).effects.countP isGenCall = 0 ∧
    (processMessage (fun s => s) configuredTable happyOracle [] hiMessage).thrown = some JsError.referenceErrorF := by
  refine ⟨?_, ?_⟩ <;> decide

/-- C3 counterexample: appending an entry already present (but not last)
leaves the union-written array unchanged, so the last element of the
retrieved history is not the appended entry even with limit at least the
stored size. -/
theorem c3_counterexample :
    (arrayUnion [demoEntryA, demoEntryB] demoEntryA).length ≤ 2 ∧
    (recent (arrayUnion [demoEntryA, demoEntryB] demoEntryA) 2).getLast? ≠ some demoEntryA := by
  refine ⟨?_, ?_⟩ <;> decide

/-- C3 (amended): appending entry E and retrieving with a limit at least
the resulting size yields E as the last element provided E was not
already stored; when E is already stored the union write leaves the list
unchanged. -/
theorem c3_amended (log : List MessageEntry) (e : MessageEntry) (limit : Nat)
    (hlen : (arrayUnion log e).length ≤ limit) :
    (e ∉ log → (recent (arrayUnion log e) limit).getLast? = some e) ∧
    (e ∈ log → arrayUnion log e = log) := by
  constructor
  · intro hnot
    have harr : arrayUnion log e = log ++ [e] := if_neg hnot
    rw [harr] at hlen ⊢
    unfold recent
    rw [Nat.sub_eq_zero_of_le hlen, List.drop_zero, List.getLast?_concat]
  · intro hmem
    exact if_pos hmem

/-- Witness for C3 (amended) at a concrete log. -/
theorem c3_amended_witness :
    (arrayUnion [demoEntryA] demoEntryB).length ≤ 2 ∧
    demoEntryB ∉ [demoEntryA] ∧
    (recent (arrayUnion [demoEntryA] demoEntryB) 2).getLast? = some demoEntryB :=
  ⟨by decide, by decide,
    (c3_amended [demoEntryA] demoEntryB 2 (by decide)).1 (by decide)⟩

/-- C9: for a message passing the filter whose inbound write succeeds,
the persisted entry's content is the first non-empty of extended-text
body, plain conversation body, image caption and video caption, and the
empty string when none is present. -/
theorem c9_content_extraction (normalize : String → String)
    (userData : List (String × UserConfig)) (o : Oracle)
    (st : ConversationStore) (msg : WAMessage)
    (hf : msg.key.fromMe = false) (hb : msg.key.remoteJid ≠ "status@broadcast")
    (hw : o.storeOkIn = true) :
    (processMessage normalize userData o st msg).effects =
      [Effect.storeWrite (normalize msg.key.remoteJid)
        { id := msg.key.id
          content := firstNonEmpty
            [msg.message.bind MessageContent.extendedTextMessageText,
             msg.message.bind MessageContent.conversation,
             msg.message.bind MessageContent.imageMessageCaption,
             msg.message.bind MessageContent.videoMessageCaption]
          participant := "user"
          timestamp := msg.messageTimestamp * 1000
          direction := "incoming" }] := by
  have hcond : ¬(msg.key.fromMe = true ∨ msg.key.remoteJid = "status@broadcast") := by
    rintro (h | h)
    · rw [hf] at h; cases h
    · exact hb h
  simp only [processMessage, if_neg hcond, hw, storeMessageInFirestore, if_pos rfl,
    if_true, extractContent_eq_firstNonEmpty]

/-- Witness for C9 at the concrete `"Hi"` message. -/
theorem c9_content_extraction_witness :
    hiMessage.key.fromMe = false ∧
    hiMessage.key.remoteJid ≠ "status@broadcast" ∧
    happyOracle.storeOkIn = true ∧
    (processMessage (fun s => s) [] happyOracle [] hiMessage).effects =
      [Effect.storeWrite ((fun s => s) hiMessage.key.remoteJid)
        { id := hiMessage.key.id
          content := firstNonEmpty
            [hiMessage.message.bind MessageContent.extendedTextMessageText,
             hiMessage.message.bind MessageContent.conversation,
             hiMessage.message.bind MessageContent.imageMessageCaption,
             hiMessage.message.bind MessageContent.videoMessageCaption]
          participant := "user"
          timestamp := hiMessage.messageTimestamp * 1000
          direction := "incoming" }] :=
  ⟨rfl, by decide, rfl,
    c9_content_extraction (fun s => s) [] happyOracle [] hiMessage rfl (by decide) rfl⟩

/-- C10: every entry the handler hands to the conversation store has
participant `"user"` exactly when its direction is `"incoming"` and
participant `"bot"` exactly when its direction is `"outgoing"`, and on
such entries the generator role mapping keyed on participant coincides
with the direction-based two-role scheme. -/
theorem c10_stored_entry_invariant (normalize : String → String)
    (userData : List (String × UserConfig)) (o : Oracle)
    (st : ConversationStore) (msg : WAMessage) (jid : String) (e : MessageEntry)
    (hmem : Effect.storeWrite jid e ∈ (processMessage normalize userData o st msg).effects) :
    ((e.participant = "user" ↔ e.direction = "incoming") ∧
     (e.participant = "bot" ↔ e.direction = "outgoing")) ∧
    roleOf e = (if e.direction = "incoming" then "user" else "model") := by
  by_cases hskip : msg.key.fromMe = true ∨ msg.key.remoteJid = "status@broadcast"
  · simp [processMessage, hskip] at hmem
  · cases hin : o.storeOkIn with
    | true =>
      simp [processMessage, if_neg hskip, hin, storeMessageInFirestore] at hmem
      obtain ⟨hj, he⟩ := hmem
      subst he
      refine ⟨⟨?_, ?_⟩, ?_⟩ <;> simp [roleOf]
    | false =>
      simp [processMessage, if_neg hskip, hin, storeMessageInFirestore] at hmem

/-- Witness for C10 at the concrete stored entry of the `"Hi"` message. -/
theorem c10_stored_entry_invariant_witness :
    Effect.storeWrite "123@s.whatsapp.net" hiEntry ∈
      (processMessage (fun s => s) [] happyOracle [] hiMessage).effects ∧
    (((hiEntry.participant = "user" ↔ hiEntry.direction = "incoming") ∧
      (hiEntry.participant = "bot" ↔ hiEntry.direction = "outgoing")) ∧
     roleOf hiEntry = (if hiEntry.direction = "incoming" then "user" else "model")) :=
  ⟨by decide,
    c10_stored_entry_invariant (fun s => s) [] happyOracle [] hiMessage
      "123@s.whatsapp.net" hiEntry (by decide)⟩

end NAi
